import Mathlib

/-!
Verification of the theme-toggle controller in `src/script.js`.

The script manipulates a small amount of page state:
  * the `data-theme` attribute on the document root (`htmlElement`);
  * the `localStorage` slot named `theme`;
  * the opacity styles of the two theme icons (`#themeIcon`, `#themeIconDark`);
  * the `aria-label` of the toggle control;
  * `themechange` custom events dispatched on `window`.

We embed this state as a structure and each function of the script as a
state transformer. `getAttribute` / `getItem` return `null` when the key is
absent, modelled by `Option String` with `none` for `null`. JavaScript
truthiness of such a value (used by `if (savedTheme)` and
`!localStorage.getItem` checks) is `truthy` below: `null` and the empty
string are falsy, every other string is truthy.

The `MutationObserver` on `data-theme` (script.js lines 175-193) delivers
one mutation record per `setAttribute` call on that attribute; its callback
updates the aria label and dispatches one `themechange` event whose payload
is the current attribute value. The page environment is single threaded and
the observer callback runs once the current task finishes, with no further
attribute mutation in between for the operations considered here, so we
fold the callback in synchronously right after each attribute write.

Purely diagnostic or visual effects with no state the claims mention are
omitted: `console.log` output (`logThemeChange`), the transient
`transform: scale` animation (`animateToggle`), the transition disabling on
page load, the toggle counter, smooth scrolling and `showAlert`.
-/

/-- State of the page as far as the theme controller reads or writes it.
`events` records the payloads of the dispatched `themechange` events in
order; each payload is the `data-theme` value read by the observer. -/
structure DOMState where
  dataTheme : Option String
  themeSlot : Option String
  themeIconOpacity : String
  themeIconDarkOpacity : String
  ariaLabel : String
  events : List (Option String)
  deriving Repr, DecidableEq

/-- JavaScript truthiness of a string-or-null value: `null` and the empty
string are falsy, every other string is truthy. -/
def truthy : Option String → Bool
  | none => false
  | some v => v ≠ ""

/-- Embeds `updateAriaLabel` (script.js lines 122-126): reads the current
`data-theme` attribute and sets the aria label of the toggle control. -/
def updateAriaLabel (s : DOMState) : DOMState :=
  let currentTheme := s.dataTheme
  let label := if currentTheme = some "dark" then "Switch to light mode"
               else "Switch to dark mode"
  { s with ariaLabel := label }

/-- Embeds the `MutationObserver` callback (script.js lines 175-188) acting
on one mutation record for `data-theme`: it re-reads the attribute, calls
`updateAriaLabel`, and dispatches a `themechange` event carrying the
attribute value. -/
def themeObserverCallback (s : DOMState) : DOMState :=
  let newTheme := s.dataTheme
  let s := updateAriaLabel s
  { s with events := s.events ++ [newTheme] }

/-- Embeds `htmlElement.setAttribute("data-theme", theme)` together with the
one observer callback this mutation triggers (see the file comment). -/
def setDataThemeAttr (theme : String) (s : DOMState) : DOMState :=
  themeObserverCallback { s with dataTheme := some theme }

/-- Embeds `updateThemeIcons` (script.js lines 30-38). -/
def updateThemeIcons (theme : String) (s : DOMState) : DOMState :=
  if theme = "dark" then
    { s with themeIconOpacity := "0.5", themeIconDarkOpacity := "1" }
  else
    { s with themeIconOpacity := "1", themeIconDarkOpacity := "0.5" }

/-- Embeds `setTheme` (script.js lines 19-24): write the attribute, write
the `localStorage` slot, update the icons. `logThemeChange` only logs. -/
def setTheme (theme : String) (s : DOMState) : DOMState :=
  let s := setDataThemeAttr theme s
  let s := { s with themeSlot := some theme }
  updateThemeIcons theme s

/-- Embeds `toggleTheme` (script.js lines 43-50): read the attribute,
invert with `currentTheme === "dark" ? "light" : "dark"`, apply.
`animateToggle` is a visual transient and is omitted. -/
def toggleTheme (s : DOMState) : DOMState :=
  let currentTheme := s.dataTheme
  let newTheme := if currentTheme = some "dark" then "light" else "dark"
  setTheme newTheme s

/-- Embeds `loadTheme` (script.js lines 65-77). `prefersDark` is the value
of `window.matchMedia("(prefers-color-scheme: dark)").matches`. -/
def loadTheme (prefersDark : Bool) (s : DOMState) : DOMState :=
  let savedTheme := s.themeSlot
  if truthy savedTheme then
    setTheme (savedTheme.getD "") s
  else
    let defaultTheme := if prefersDark then "dark" else "light"
    setTheme defaultTheme s

/-- Embeds the `matchMedia` change listener (script.js lines 104-111).
`matches` is `e.matches`; the guard is `!localStorage.getItem("theme")`. -/
def systemThemeChange (m : Bool) (s : DOMState) : DOMState :=
  if truthy s.themeSlot then s
  else setTheme (if m then "dark" else "light") s

/-- Embeds `getCurrentTheme` (script.js lines 203-205). -/
def getCurrentTheme (s : DOMState) : Option String :=
  s.dataTheme

/-- Embeds `isDarkMode` (script.js lines 211-213). -/
def isDarkMode (s : DOMState) : Bool :=
  getCurrentTheme s = some "dark"

/-- Embeds the `visibilitychange` listener (script.js lines 298-309).
`hidden` is `document.hidden` at delivery time. -/
def visibilityChange (hidden : Bool) (s : DOMState) : DOMState :=
  if hidden then s
  else
    let savedTheme := s.themeSlot
    let currentTheme := getCurrentTheme s
    if truthy savedTheme && savedTheme ≠ currentTheme then
      setTheme (savedTheme.getD "") s
    else s

/-- The mutating operations of the controller after page load. -/
inductive Op where
  | load (prefersDark : Bool)
  | toggle
  | systemChange (m : Bool)
  | visibility (hidden : Bool)
  deriving Repr, DecidableEq

/-- One event-loop step: dispatch of one operation to its handler. -/
def step (s : DOMState) : Op → DOMState
  | Op.load prefersDark => loadTheme prefersDark s
  | Op.toggle => toggleTheme s
  | Op.systemChange m => systemThemeChange m s
  | Op.visibility h => visibilityChange h s

/-- Convergence of the two stores: the `data-theme` attribute and the
`localStorage` slot hold the same value. -/
def converged (s : DOMState) : Prop :=
  s.dataTheme = s.themeSlot

/-- A page state before the script has written anything: no attribute, no
persisted slot, markup-provided icon styles and label, no events yet. -/
def freshState : DOMState :=
  { dataTheme := none
    themeSlot := none
    themeIconOpacity := "1"
    themeIconDarkOpacity := "0.5"
    ariaLabel := "Toggle dark mode"
    events := [] }

/-- Characterisation of `setTheme`: every field of the resulting state,
read off the source line by line. -/
theorem setTheme_eq (t : String) (s : DOMState) :
    setTheme t s =
      { dataTheme := some t
        themeSlot := some t
        themeIconOpacity := if t = "dark" then "0.5" else "1"
        themeIconDarkOpacity := if t = "dark" then "1" else "0.5"
        ariaLabel := if t = "dark" then "Switch to light mode"
                     else "Switch to dark mode"
        events := s.events ++ [some t] } := by
  by_cases h : t = "dark" <;>
    simp [setTheme, setDataThemeAttr, themeObserverCallback, updateAriaLabel,
      updateThemeIcons, h]

/-- Every call to the applier leaves the two stores equal. -/
theorem converged_setTheme (t : String) (s : DOMState) :
    converged (setTheme t s) := by
  simp [converged, setTheme_eq]

/-- Initial resolution always ends in a call to the applier. -/
theorem converged_loadTheme (pd : Bool) (s : DOMState) :
    converged (loadTheme pd s) := by
  simp only [loadTheme]
  split
  · exact converged_setTheme _ _
  · exact converged_setTheme _ _

/-- Each handler either calls the applier or leaves the state untouched,
so convergence of the two stores is preserved. -/
theorem converged_step (s : DOMState) (op : Op) (h : converged s) :
    converged (step s op) := by
  cases op with
  | load pd => exact converged_loadTheme pd s
  | toggle => exact converged_setTheme _ _
  | systemChange m =>
      simp only [step, systemThemeChange]
      split
      · exact h
      · exact converged_setTheme _ _
  | visibility hid =>
      simp only [step, visibilityChange]
      split
      · exact h
      · split
        · exact converged_setTheme _ _
        · exact h

/-- Convergence is preserved by any sequence of handler invocations. -/
theorem converged_foldl (s : DOMState) (ops : List Op) (h : converged s) :
    converged (List.foldl step s ops) := by
  induction ops generalizing s with
  | nil => exact h
  | cons op rest ih => exact ih _ (converged_step s op h)

/-- Claim C1: `loadTheme` precedence. A persisted "dark" wins over an OS
preference reporting false; with the slot absent the OS signal decides,
dark when it reports true and light when it reports false. -/
theorem loadTheme_precedence (s : DOMState) :
    (s.themeSlot = some "dark" → (loadTheme false s).dataTheme = some "dark") ∧
    (s.themeSlot = none → (loadTheme true s).dataTheme = some "dark") ∧
    (s.themeSlot = none → (loadTheme false s).dataTheme = some "light") := by
  refine ⟨fun h => ?_, fun h => ?_, fun h => ?_⟩ <;>
    simp [loadTheme, h, truthy, setTheme_eq]

/-- Witness for C1 at concrete states. -/
theorem loadTheme_precedence_spot :
    (loadTheme false { freshState with themeSlot := some "dark" }).dataTheme
        = some "dark" ∧
    (loadTheme true freshState).dataTheme = some "dark" ∧
    (loadTheme false freshState).dataTheme = some "light" :=
  ⟨(loadTheme_precedence _).1 rfl, (loadTheme_precedence _).2.1 rfl,
    (loadTheme_precedence _).2.2 rfl⟩

/-- Claim C2, counterexample: with the malformed persisted value "blue" and
the OS reporting false, `loadTheme` applies "blue" to the attribute, while
with the slot absent it would apply "light" — so a malformed non-empty slot
is not treated as absent and the malformed value is applied. -/
theorem loadTheme_malformed_counterexample :
    (loadTheme false { freshState with themeSlot := some "blue" }).dataTheme
        = some "blue" ∧
    (loadTheme false freshState).dataTheme = some "light" := by
  constructor <;> rfl

/-- Claim C2 as amended: `loadTheme` checks only JavaScript truthiness of
the persisted slot. Any non-empty persisted string, valid or not, is passed
to `setTheme` unchanged; only an absent slot or one holding the empty
string falls back to the OS dark-preference signal. -/
theorem loadTheme_truthiness (s : DOMState) (pd : Bool) :
    (∀ v : String, s.themeSlot = some v → v ≠ "" →
      loadTheme pd s = setTheme v s) ∧
    ((s.themeSlot = none ∨ s.themeSlot = some "") →
      loadTheme pd s = setTheme (if pd then "dark" else "light") s) := by
  constructor
  · intro v hv hne
    simp [loadTheme, hv, truthy, hne]
  · rintro (h | h) <;> simp [loadTheme, h, truthy]

/-- Witness for amended C2 at concrete states. -/
theorem loadTheme_truthiness_spot :
    loadTheme false { freshState with themeSlot := some "blue" }
        = setTheme "blue" { freshState with themeSlot := some "blue" } ∧
    loadTheme true freshState = setTheme "dark" freshState :=
  ⟨(loadTheme_truthiness _ false).1 "blue" rfl (by decide),
    (loadTheme_truthiness _ true).2 (Or.inl rfl)⟩

/-- Claim C3: `setTheme` is idempotent on the applied-state attribute, the
persisted slot, the two icon opacities and the derived aria label. -/
theorem setTheme_idempotent (t : String) (s : DOMState) :
    (setTheme t (setTheme t s)).dataTheme = (setTheme t s).dataTheme ∧
    (setTheme t (setTheme t s)).themeSlot = (setTheme t s).themeSlot ∧
    (setTheme t (setTheme t s)).themeIconOpacity
        = (setTheme t s).themeIconOpacity ∧
    (setTheme t (setTheme t s)).themeIconDarkOpacity
        = (setTheme t s).themeIconDarkOpacity ∧
    (setTheme t (setTheme t s)).ariaLabel = (setTheme t s).ariaLabel := by
  simp [setTheme_eq]

/-- Claim C4: from an applied theme of "light" one toggle applies "dark",
from "dark" one toggle applies "light", and from either valid theme two
consecutive toggles restore the original applied state. -/
theorem toggleTheme_inverse (s : DOMState)
    (h : s.dataTheme = some "light" ∨ s.dataTheme = some "dark") :
    (s.dataTheme = some "light" → (toggleTheme s).dataTheme = some "dark") ∧
    (s.dataTheme = some "dark" → (toggleTheme s).dataTheme = some "light") ∧
    (toggleTheme (toggleTheme s)).dataTheme = s.dataTheme := by
  rcases h with h | h <;> simp [toggleTheme, h, setTheme_eq]

/-- Witness for C4 starting from an applied "light" theme. -/
theorem toggleTheme_inverse_spot :
    (toggleTheme { freshState with dataTheme := some "light" }).dataTheme
        = some "dark" ∧
    (toggleTheme (toggleTheme { freshState with dataTheme := some "light" })
        ).dataTheme = some "light" :=
  ⟨(toggleTheme_inverse _ (Or.inl rfl)).1 rfl,
    (toggleTheme_inverse _ (Or.inl rfl)).2.2⟩

/-- Claim C5: while the persisted slot holds a non-empty value an OS
preference-change notification leaves the applied-state attribute
unchanged; when the slot is empty the OS-reported theme is applied. -/
theorem systemThemeChange_suppression (s : DOMState) (m : Bool) :
    (truthy s.themeSlot = true →
      (systemThemeChange m s).dataTheme = s.dataTheme) ∧
    (truthy s.themeSlot = false →
      (systemThemeChange m s).dataTheme
          = some (if m then "dark" else "light")) := by
  constructor <;> intro h <;> simp [systemThemeChange, h, setTheme_eq]

/-- Witness for C5 at concrete states. -/
theorem systemThemeChange_suppression_spot :
    (systemThemeChange true
        { freshState with themeSlot := some "light",
                          dataTheme := some "light" }).dataTheme
      = some "light" ∧
    (systemThemeChange true freshState).dataTheme = some "dark" :=
  ⟨(systemThemeChange_suppression _ true).1 (by decide),
    (systemThemeChange_suppression _ true).2 (by decide)⟩

/-- Claim C6: a call to `setTheme` that changes the applied-state attribute
dispatches exactly one themechange event, whose payload equals the new
attribute value. -/
theorem setTheme_notification (t : String) (s : DOMState)
    (_h : s.dataTheme ≠ some t) :
    (setTheme t s).events = s.events ++ [some t] ∧
    (setTheme t s).dataTheme = some t := by
  simp [setTheme_eq]

/-- Witness for C6 at a concrete state. -/
theorem setTheme_notification_spot :
    (setTheme "dark" freshState).events = freshState.events ++ [some "dark"] ∧
    (setTheme "dark" freshState).dataTheme = some "dark" :=
  setTheme_notification "dark" freshState (by decide)

/-- Claim C7: on becoming visible, a non-empty persisted value differing
from the applied attribute is applied through `setTheme` (attribute becomes
the persisted value and one themechange event with that payload is
dispatched); if the two already agree, or the slot is empty, the state is
left untouched. -/
theorem visibilityChange_reconciliation (s : DOMState) (v : String) :
    (s.themeSlot = some v → v ≠ "" → s.themeSlot ≠ s.dataTheme →
      (visibilityChange false s).dataTheme = some v ∧
      (visibilityChange false s).events = s.events ++ [some v]) ∧
    (s.themeSlot = s.dataTheme ∨ truthy s.themeSlot = false →
      visibilityChange false s = s) := by
  constructor
  · intro hv hne hdiff
    simp [visibilityChange, getCurrentTheme, hv, truthy, hne,
      hv ▸ hdiff, setTheme_eq]
  · rintro (h | h)
    · simp [visibilityChange, getCurrentTheme, h]
    · simp [visibilityChange, getCurrentTheme, h]

/-- Witness for C7: drifted state is reconciled, fresh state untouched. -/
theorem visibilityChange_reconciliation_spot :
    (visibilityChange false
        { freshState with themeSlot := some "light",
                          dataTheme := some "dark" }).dataTheme
      = some "light" ∧
    visibilityChange false freshState = freshState :=
  ⟨((visibilityChange_reconciliation _ "light").1 rfl (by decide)
      (by decide)).1,
    (visibilityChange_reconciliation _ "light").2 (Or.inr (by decide))⟩

/-- Claim C8: starting from initial resolution, after any sequence of
handler invocations (toggle, OS preference change, visibility change,
re-resolution) the persisted slot and the applied-state attribute hold the
same value: every mutating path writes both through `setTheme`. -/
theorem converged_after_ops (pd : Bool) (s : DOMState) (ops : List Op) :
    converged (List.foldl step (loadTheme pd s) ops) :=
  converged_foldl _ ops (converged_loadTheme pd s)

/-- Claim C9: for any theme string other than "dark" — "light", the empty
string, or an invalid value — `setTheme` sets the light icon opacity to
"1", the dark icon opacity to "0.5", and the derived aria label to
"Switch to dark mode"; only the exact string "dark" yields the
dark-emphasis display state. -/
theorem setTheme_lightDisplay (t : String) (s : DOMState) (h : t ≠ "dark") :
    ((setTheme t s).themeIconOpacity = "1" ∧
     (setTheme t s).themeIconDarkOpacity = "0.5" ∧
     (setTheme t s).ariaLabel = "Switch to dark mode") ∧
    ((setTheme "dark" s).themeIconOpacity = "0.5" ∧
     (setTheme "dark" s).themeIconDarkOpacity = "1") := by
  simp [setTheme_eq, h]

/-- Witness for C9 at the concrete non-dark inputs "light" and "blue". -/
theorem setTheme_lightDisplay_spot :
    ((setTheme "blue" freshState).themeIconOpacity = "1" ∧
     (setTheme "blue" freshState).themeIconDarkOpacity = "0.5" ∧
     (setTheme "blue" freshState).ariaLabel = "Switch to dark mode") ∧
    ((setTheme "dark" freshState).themeIconOpacity = "0.5" ∧
     (setTheme "dark" freshState).themeIconDarkOpacity = "1") :=
  setTheme_lightDisplay "blue" freshState (by decide)

/-- Claim C10: whenever the applied-state attribute is anything other than
exactly "dark" — absent, "light", or invalid — one `toggleTheme` call
applies "dark"; and after any single toggle the attribute is one of the two
valid theme strings. -/
theorem toggleTheme_totality (s : DOMState) :
    (s.dataTheme ≠ some "dark" → (toggleTheme s).dataTheme = some "dark") ∧
    ((toggleTheme s).dataTheme = some "light" ∨
     (toggleTheme s).dataTheme = some "dark") := by
  constructor
  · intro h
    simp [toggleTheme, h, setTheme_eq]
  · by_cases h : s.dataTheme = some "dark" <;>
      simp [toggleTheme, h, setTheme_eq]

/-- Witness for C10 at a state with no applied theme attribute. -/
theorem toggleTheme_totality_spot :
    (toggleTheme freshState).dataTheme = some "dark" :=
  (toggleTheme_totality freshState).1 (by decide)
